import Mathlib

/-!
Shallow embedding of the JSON structural matcher and file helpers of the
bdd-api-auto repository (src/utils/schema_validation.py, src/utils/file_handle.py,
src/utils/common.py), together with theorems settling the frozen claims about it.

JSON values decoded from a response body are modelled by `JValue`.  Python
distinguishes `int` and `float` at the type level (`type(x).__name__`), so the
embedding keeps two numeric constructors; floats are modelled as rationals,
which is exact for every value the claims touch.
-/

inductive JValue : Type where
  | jnull : JValue
  | jbool : Bool → JValue
  | jint : Int → JValue
  | jfloat : Rat → JValue
  | jstr : String → JValue
  | jarr : List JValue → JValue
  | jobj : List (String × JValue) → JValue
deriving Repr

/-- Python `type(x).__name__` for the modelled values. -/
def typeName : JValue → String
  | .jnull => "NoneType"
  | .jbool _ => "bool"
  | .jint _ => "int"
  | .jfloat _ => "float"
  | .jstr _ => "str"
  | .jarr _ => "list"
  | .jobj _ => "dict"

/-- Numeric view used by Python `==` across `bool`, `int` and `float`
(`True == 1`, `1 == 1.0` are all true in Python). -/
def numVal : JValue → Option Rat
  | .jbool b => some (if b then 1 else 0)
  | .jint n => some (n : Rat)
  | .jfloat q => some q
  | _ => none

/-- First value stored under a key, if any. -/
def lookupField : List (String × JValue) → String → Option JValue
  | [], _ => none
  | (k, v) :: rest, key => if k == key then some v else lookupField rest key

mutual

/-- Python `==` on the modelled values: numeric kinds compare by value
(`bool` is a subclass of `int`), strings by content, lists elementwise and
dicts by equal key sets with `==`-equal values. -/
def pyEq : JValue → JValue → Bool
  | .jnull, .jnull => true
  | .jstr a, .jstr b => a == b
  | .jarr xs, .jarr ys => pyEqList xs ys
  | .jobj xs, .jobj ys => xs.length == ys.length && pyEqFields xs ys
  | a, b =>
    match numVal a, numVal b with
    | some x, some y => x == y
    | _, _ => false
termination_by structural a _ => a

def pyEqList : List JValue → List JValue → Bool
  | [], [] => true
  | x :: xs, y :: ys => pyEq x y && pyEqList xs ys
  | _, _ => false
termination_by structural xs _ => xs

/-- Holds when every key of the first dict is found in the second with a
`==`-equal value. -/
def pyEqFields : List (String × JValue) → List (String × JValue) → Bool
  | [], _ => true
  | (k, v) :: rest, ys =>
    (match lookupField ys k with
     | some w => pyEq v w
     | none => false) && pyEqFields rest ys
termination_by structural xs _ => xs

end

/-- Best-effort rendering of a float; exact for integral values (`str(1.0)`
is `"1.0"` in Python), approximate otherwise.  No claim depends on it. -/
def pyReprFloat (q : Rat) : String :=
  if q.den == 1 then toString q.num ++ ".0" else toString q

mutual

/-- Python `repr` of the modelled values, as interpolated into f-strings for
container and string values. -/
def pyRepr : JValue → String
  | .jnull => "None"
  | .jbool true => "True"
  | .jbool false => "False"
  | .jint n => toString n
  | .jfloat q => pyReprFloat q
  | .jstr s => "'" ++ s ++ "'"
  | .jarr xs => "[" ++ pyReprList xs ++ "]"
  | .jobj fs => "\x7b" ++ pyReprFields fs ++ "\x7d"
termination_by structural v => v

def pyReprList : List JValue → String
  | [] => ""
  | [x] => pyRepr x
  | x :: rest => pyRepr x ++ ", " ++ pyReprList rest
termination_by structural xs => xs

def pyReprFields : List (String × JValue) → String
  | [] => ""
  | [(k, v)] => "'" ++ k ++ "': " ++ pyRepr v
  | (k, v) :: rest => "'" ++ k ++ "': " ++ pyRepr v ++ ", " ++ pyReprFields rest
termination_by structural xs => xs

end

/-- Python `str()` as used by f-string interpolation: strings render verbatim,
everything else via `repr`. -/
def pyStr : JValue → String
  | .jstr s => s
  | v => pyRepr v

/-- Check that the first character list starts the second. -/
def charsLead : List Char → List Char → Bool
  | [], _ => true
  | a :: as, cs =>
    match cs with
    | [] => false
    | b :: bs => a == b && charsLead as bs

/-- Python `str.startswith`, modelled on the character list. -/
def pyStartswith (s pre : String) : Bool :=
  charsLead pre.toList s.toList

/-- Python slicing `s[n:]`, modelled on the character list. -/
def pySliceFrom (s : String) (n : Nat) : String :=
  String.mk (s.toList.drop n)

/-! ### A model of Python `re.match`

`re.match(pattern, s)` is truthy iff the pattern matches some prefix of `s`
starting at position 0 (it is anchored at the start but need not consume the
whole string).  The engine below covers the subset of Python regex syntax the
repository's schemas need: literal characters, `.`, the postfix operators
`*`, `+`, `?`, and a leading `^` (redundant under `re.match`).  Patterns using
other metacharacters fall outside the model. -/

inductive Regex : Type where
  | eps : Regex
  | chr : Char → Regex
  | dot : Regex
  | alt : Regex → Regex → Regex
  | cat : Regex → Regex → Regex
  | star : Regex → Regex
  | void : Regex
deriving Repr, DecidableEq

def nullable : Regex → Bool
  | .eps => true
  | .chr _ => false
  | .dot => false
  | .alt r1 r2 => nullable r1 || nullable r2
  | .cat r1 r2 => nullable r1 && nullable r2
  | .star _ => true
  | .void => false

def rderiv : Regex → Char → Regex
  | .eps, _ => .void
  | .chr c, a => if c = a then .eps else .void
  | .dot, _ => .eps
  | .alt r1 r2, a => .alt (rderiv r1 a) (rderiv r2 a)
  | .cat r1 r2, a =>
    if nullable r1 then .alt (.cat (rderiv r1 a) r2) (rderiv r2 a)
    else .cat (rderiv r1 a) r2
  | .star r, a => .cat (rderiv r a) (.star r)
  | .void, _ => .void

/-- Holds when the regex matches the whole character list. -/
def reFullMatch (r : Regex) (cs : List Char) : Bool :=
  nullable (cs.foldl rderiv r)

/-- Truthiness of Python `re.match`: some prefix of `s` is fully matched. -/
def reMatchStart (r : Regex) (s : String) : Bool :=
  (List.range (s.toList.length + 1)).any fun k => reFullMatch r (s.toList.take k)

def regexMeta : List Char :=
  ['*', '+', '?', '(', ')', '[', ']', '\x7b', '\x7d', '\\', '|', '$', '^']

def parseAtom (c : Char) : Option Regex :=
  if c = '.' then some .dot
  else if c ∈ regexMeta then none
  else some (.chr c)

mutual

def parseChars : List Char → Option Regex
  | [] => some .eps
  | c :: rest =>
    match parseAtom c with
    | none => none
    | some a => parseAfterAtom a rest
termination_by structural cs => cs

/-- Continues after a parsed atom: apply a postfix operator if one follows,
otherwise start the next atom. -/
def parseAfterAtom (a : Regex) : List Char → Option Regex
  | [] => some (.cat a .eps)
  | d :: rest2 =>
    if d = '*' then (parseChars rest2).map (fun r => .cat (.star a) r)
    else if d = '+' then (parseChars rest2).map (fun r => .cat (.cat a (.star a)) r)
    else if d = '?' then (parseChars rest2).map (fun r => .cat (.alt a .eps) r)
    else
      match parseAtom d with
      | none => none
      | some b => (parseAfterAtom b rest2).map (fun r => .cat a r)
termination_by structural cs => cs

end

/-- Parses a Python pattern string into the modelled subset; a leading `^` is
redundant under `re.match` and is stripped. -/
def parseRegex (p : String) : Option Regex :=
  match p.toList with
  | '^' :: rest => parseChars rest
  | cs => parseChars cs

/-- Exceptions the embedded code can raise.  `reUnsupported` marks the model
boundary: the pattern uses regex syntax outside the modelled subset (Python
itself would not raise there). -/
inductive PyExn : Type where
  | attributeError : String → PyExn
  | reUnsupported : String → PyExn
deriving Repr, DecidableEq

/-! ### The matcher (src/utils/schema_validation.py) -/

def isNull : JValue → Bool
  | .jnull => true
  | _ => false

/-- Python `isinstance(x, str)`. -/
def isStr : JValue → Bool
  | .jstr _ => true
  | _ => false

/-- Python `isinstance(x, (list, dict))`. -/
def isListOrDict : JValue → Bool
  | .jarr _ => true
  | .jobj _ => true
  | _ => false

/-- Python `isinstance(x, (int, float))`; `bool` is a subclass of `int` in
Python, so booleans satisfy this check. -/
def isNumberInst : JValue → Bool
  | .jbool _ => true
  | .jint _ => true
  | .jfloat _ => true
  | _ => false

/-- Python `isinstance(x, bool)`. -/
def isBoolInst : JValue → Bool
  | .jbool _ => true
  | _ => false

/-- Python `isinstance(x, (dict, list, str))`, the guard of the
homogeneous-array shorthand on line 111. -/
def isDictListOrStr : JValue → Bool
  | .jobj _ => true
  | .jarr _ => true
  | .jstr _ => true
  | _ => false

/-- Python `dict.get(key)`: the stored value, or `None` when the key is
missing (the matcher cannot distinguish the two). -/
def dictGet (fields : List (String × JValue)) (key : String) : JValue :=
  match fields with
  | [] => .jnull
  | (k, v) :: rest => if k == key then v else dictGet rest key

/-- Diagnostic strings of `_validate_field`, factored out verbatim. -/
def msgMissingPresent (fieldPath : String) : String :=
  s!"Validation Error: Field '{fieldPath}' is missing but expected to be present."

/-- Line 50's message (note: no colon after the path in the source). -/
def msgEmptyArray (fieldPath tn : String) : String :=
  s!"Validation Error at '{fieldPath}' expected an array, got {tn}."

/-- Shared shape of the kind-mismatch messages (string/number/boolean/object/array). -/
def msgExpectedKind (fieldPath kind tn : String) : String :=
  s!"Validation Error at '{fieldPath}': expected {kind}, got {tn}."

def msgNotNull (fieldPath : String) : String :=
  s!"Validation Error at '{fieldPath}': expected not null value."

def msgNullGot (fieldPath tn vs : String) : String :=
  s!"Validation Error at '{fieldPath}': expected null value. got {tn} with value '{vs}'."

def msgRegexKind (fieldPath pattern tn : String) : String :=
  s!"Validation Error at '{fieldPath}': expected string to match regex '{pattern}', got {tn}."

def msgRegexNoMatch (fieldPath value pattern : String) : String :=
  s!"Validation Error at '{fieldPath}': value '{value}' does not match regex '{pattern}'."

def msgExpectedValue (fieldPath expected got : String) : String :=
  s!"Validation Error at '{fieldPath}': expected value '{expected}', got '{got}'."

def msgLength (fieldPath : String) (sl rl : Nat) : String :=
  s!"Validation Error at '{fieldPath}': expected array of length {sl}, got {rl}."

def msgAttr (tn : String) : String :=
  s!"'{tn}' object has no attribute 'startswith'"

/-- Dispatch of lines 47-97: a schema node that is a string, after the
optional-prefix strip (`sv` is the stripped token).  This arm of
`_validate_field` never recurses and appends at most one diagnostic, so it is
rendered as computing the appended diagnostics; `validateStrToken` below
splices them onto the accumulator. -/
def strTokenDiag (responseValue : JValue) (sv : String)
    (fieldPath : String) : Except PyExn (List String) :=
  if pyStartswith sv "#[]" then
    -- lines 48-51: the length-zero check, then an unconditional return
    match responseValue with
    | .jarr items =>
      if items.length != 0 then
        .ok ([msgEmptyArray fieldPath (typeName responseValue)])
      else .ok []
    | _ =>
      .ok ([msgEmptyArray fieldPath (typeName responseValue)])
  else if sv == "#string" then
    if !isStr responseValue then
      .ok ([msgExpectedKind fieldPath "string" (typeName responseValue)])
    else .ok []
  else if sv == "#number" then
    if !isNumberInst responseValue then
      .ok ([msgExpectedKind fieldPath "number" (typeName responseValue)])
    else .ok []
  else if sv == "#boolean" then
    if !isBoolInst responseValue then
      .ok ([msgExpectedKind fieldPath "boolean" (typeName responseValue)])
    else .ok []
  else if sv == "#object" then
    match responseValue with
    | .jobj _ => .ok []
    | _ =>
      .ok ([msgExpectedKind fieldPath "object" (typeName responseValue)])
  else if sv == "#array" then
    match responseValue with
    | .jarr _ => .ok []
    | _ =>
      .ok ([msgExpectedKind fieldPath "array" (typeName responseValue)])
  else if sv == "#notnull" then
    if isNull responseValue then
      .ok ([msgNotNull fieldPath])
    else .ok []
  else if sv == "#null" then
    if !isNull responseValue then
      .ok ([msgNullGot fieldPath (typeName responseValue) (pyStr responseValue)])
    else .ok []
  else if pyStartswith sv "#regex " then
    -- lines 89-94
    let pattern := pySliceFrom sv 7
    match responseValue with
    | .jstr rs =>
      match parseRegex pattern with
      | some r =>
        if !reMatchStart r rs then
          .ok ([msgRegexNoMatch fieldPath rs pattern])
        else .ok []
      | none => .error (.reUnsupported pattern)
    | _ =>
      .ok ([msgRegexKind fieldPath pattern (typeName responseValue)])
  else
    -- lines 95-97: literal string comparison against the stripped token
    if !pyEq responseValue (.jstr sv) then
      .ok ([msgExpectedValue fieldPath sv (pyStr responseValue)])
    else .ok []

/-- Combines the per-element diagnostics of an array loop in order,
propagating the first raised exception (which, as in Python, abandons the
diagnostics already produced). -/
def combineDiags : List (Except PyExn (List String)) → Except PyExn (List String)
  | [] => .ok []
  | .error e :: _ => .error e
  | .ok fresh :: rest =>
    match combineDiags rest with
    | .error e => .error e
    | .ok more => .ok (fresh ++ more)

mutual

/-- Embeds `_validate_field(response_value, schema_value, field_path)`.  The
closure-mutated `errors` list is rendered in writer style: each call returns
the diagnostics it appends, in order, and a raised exception abandons them,
as in Python; `validateField` below restores the threaded-accumulator view.
The fragment-resolution block on lines 53-66 of the source sits after the
unconditional `return` on line 51 and is unreachable, so it has no
counterpart here. -/
def validateFieldDiag (responseValue schemaValue0 : JValue)
    (fieldPath : String) : Except PyExn (List String) :=
  -- lines 25-30: detect and strip the optional "##" prefix
  let isOptional : Bool :=
    match schemaValue0 with
    | .jstr s => pyStartswith s "##"
    | _ => false
  let schemaValue : JValue :=
    match schemaValue0 with
    | .jstr s => if pyStartswith s "##" then .jstr (pySliceFrom s 2) else .jstr s
    | v => v
  if isOptional && isNull responseValue then .ok []
  else if pyEq schemaValue (.jstr "#present") then
    -- lines 35-38
    if isNull responseValue then
      .ok [msgMissingPresent fieldPath]
    else .ok []
  else if pyEq schemaValue (.jstr "#ignore") then .ok []
  -- line 43: evaluating the guard calls `.startswith` on schema_value after
  -- `not isinstance(schema_value, str)` has succeeded, so the branch raises
  -- AttributeError whenever it is reached and never appends the line-44 error
  else if !isOptional && isNull responseValue && !pyEq schemaValue (.jstr "#null")
      && !isListOrDict schemaValue && !isStr schemaValue then
    .error (.attributeError (msgAttr (typeName schemaValue)))
  else
    match schemaValue0 with
    | .jstr s0 =>
      let sv := if pyStartswith s0 "##" then pySliceFrom s0 2 else s0
      strTokenDiag responseValue sv fieldPath
    | .jobj schemaFields =>
      -- lines 98-109; keys present only in the observed value are ignored
      -- (the loop over extra_keys has an empty body)
      match responseValue with
      | .jobj respFields => validateObjFieldsDiag schemaFields respFields fieldPath
      | _ =>
        .ok [msgExpectedKind fieldPath "object" (typeName responseValue)]
    | .jarr [itemSchema] =>
        if isDictListOrStr itemSchema then
          -- lines 110-117: the homogeneous shorthand applies only to a
          -- single-element schema list whose element is a dict, list or str
          match responseValue with
          | .jarr respItems =>
            combineDiags
              (respItems.enum.map fun p =>
                validateFieldDiag p.2 itemSchema (fieldPath ++ "[" ++ toString p.1 ++ "]"))
          | _ =>
            .ok [msgExpectedKind fieldPath "array" (typeName responseValue)]
        else
          -- lines 118-126: the positional branch, specialised to the
          -- singleton schema list (the observed array must have length 1 and
          -- its element is checked against the single schema element)
          match responseValue with
          | .jarr [r] => validateFieldDiag r itemSchema (fieldPath ++ "[0]")
          | .jarr respItems =>
            .ok [msgLength fieldPath 1 respItems.length]
          | _ =>
            .ok [msgExpectedKind fieldPath "array" (typeName responseValue)]
    | .jarr schemaItems =>
        -- lines 118-126: the positional branch
        match responseValue with
        | .jarr respItems =>
          if respItems.length != schemaItems.length then
            .ok [msgLength fieldPath schemaItems.length respItems.length]
          else validateZipDiag respItems schemaItems fieldPath 0
        | _ =>
          .ok [msgExpectedKind fieldPath "array" (typeName responseValue)]
    | _ =>
      -- lines 127-129: literal comparison for non-str, non-container schema nodes
      if !pyEq responseValue schemaValue then
        .ok [msgExpectedValue fieldPath (pyStr schemaValue) (pyStr responseValue)]
      else .ok []
termination_by structural schemaValue0

/-- Embeds the `for key, val in schema_value.items()` loop of lines 108-109,
in the same writer style. -/
def validateObjFieldsDiag (schemaFields respFields : List (String × JValue))
    (fieldPath : String) : Except PyExn (List String) :=
  match schemaFields with
  | [] => .ok []
  | (key, val) :: rest =>
    match validateFieldDiag (dictGet respFields key) val (fieldPath ++ "." ++ key) with
    | .error e => .error e
    | .ok fresh =>
      match validateObjFieldsDiag rest respFields fieldPath with
      | .error e => .error e
      | .ok more => .ok (fresh ++ more)
termination_by structural schemaFields

/-- Embeds the `zip(response_value, schema_value)` loop of lines 125-126,
in the same writer style. -/
def validateZipDiag (respItems schemaItems : List JValue) (fieldPath : String)
    (idx : Nat) : Except PyExn (List String) :=
  match respItems, schemaItems with
  | r :: rs, s :: ss =>
    match validateFieldDiag r s (fieldPath ++ "[" ++ toString idx ++ "]") with
    | .error e => .error e
    | .ok fresh =>
      match validateZipDiag rs ss fieldPath (idx + 1) with
      | .error e => .error e
      | .ok more => .ok (fresh ++ more)
  | _, _ => .ok []
termination_by structural schemaItems

end

/-- Threaded-accumulator view of `_validate_field`: append this call's
diagnostics to the accumulator it was given (a raised exception abandons the
accumulator, as in Python). -/
def validateField (responseValue schemaValue0 : JValue) (fieldPath : String)
    (errors : List String) : Except PyExn (List String) :=
  match validateFieldDiag responseValue schemaValue0 fieldPath with
  | .ok fresh => .ok (errors ++ fresh)
  | .error e => .error e

/-- Embeds `validate_json_schema(response_data, schema)` of
src/utils/schema_validation.py (the accumulator is created fresh per call,
so its final contents are exactly this call's diagnostics). -/
def validate_json_schema (response_data schema : JValue) : Except PyExn (Bool × String) :=
  match validateFieldDiag response_data schema "" with
  | .error e => .error e
  | .ok errors =>
    if errors.isEmpty then .ok (true, "Validation successful.")
    else .ok (false, String.intercalate "\n" errors)

/-! ### File helpers (src/utils/file_handle.py, src/utils/common.py) -/

/-- Filesystem facts consulted by `get_abs_file_path`: `Path(p).is_file()`,
the files yielded by `Path(dir).rglob(pattern)` in traversal order, and
`str(Path(p).resolve())`. -/
structure FileSystem : Type where
  isFile : String → Bool
  rglob : String → String → List String
  resolvePath : String → String

/-- Embeds `get_abs_file_path(pattern, elative_path)` of
src/utils/file_handle.py; a raised `Exception(msg)` is modelled as
`.error msg` (the interpolated file list of the first message is not
rendered; no claim depends on message text). -/
def get_abs_file_path (fs : FileSystem) (pattern : String)
    (elative_path : String) : Except String String :=
  if fs.isFile pattern then .ok (fs.resolvePath pattern)
  else
    let found_files := (fs.rglob elative_path pattern).filter fs.isFile
    if found_files.length > 1 then
      .error s!"Multiple files found for pattern {pattern} in {elative_path}"
    else
      match found_files with
      | [] => .error s!"No file found for pattern {pattern} in {elative_path}"
      | f :: _ => .ok (fs.resolvePath f)

/-- Filesystem facts consulted by `read_json_file`: `os.path.exists` and the
text read from an existing file. -/
structure TextFS : Type where
  pathExists : String → Bool
  contents : String → String

/-- Embeds `read_json_file(file_path)` of src/utils/common.py: parse the
file's contents when the path exists, otherwise return the empty dict.
`json.load` is abstracted as the `parse` argument; an exception from it
propagates as `.error`. -/
def read_json_file (fs : TextFS) (parse : String → Except String JValue)
    (file_path : String) : Except String JValue :=
  if fs.pathExists file_path then parse (fs.contents file_path)
  else .ok (.jobj [])

/-- Concrete filesystem used to witness the `get_abs_file_path` theorem. -/
def c9fs : FileSystem where
  isFile := fun p => p == "res/a.json"
  rglob := fun _ _ => ["res/a.json"]
  resolvePath := fun p => "/abs/" ++ p

/-- Concrete filesystem used to witness the `read_json_file` theorem. -/
def c10fs : TextFS where
  pathExists := fun _ => false
  contents := fun _ => ""
/-! ### Theorems settling the claims -/

/-- C1: the array-of-referenced-schema behaviour is dead code.  `##[]userSchema`
against the observed empty array is rejected as a literal string mismatch (the
`##` strip leaves `[]userSchema`, which no token branch recognises), and
`#[]userSchema` against `[{"id": 1}]` is rejected by the length-zero check of
lines 48-51; the fragment-resolution block of lines 53-66 sits after the
unconditional `return` of line 51 and never runs, so the registry fragment
`userSchema` is never consulted. -/
theorem c1_array_reference_dead :
    validate_json_schema (.jarr []) (.jstr "##[]userSchema") =
      .ok (false, "Validation Error at '': expected value '[]userSchema', got '[]'.") ∧
    validate_json_schema (.jarr [.jobj [("id", .jint 1)]]) (.jstr "#[]userSchema") =
      .ok (false, "Validation Error at '' expected an array, got list.") := ⟨rfl, rfl⟩

/-- C2: the matcher does raise for a data mismatch: checking a missing (`None`)
observed value against the literal number schema node `1` reaches line 43,
whose guard evaluates `schema_value.startswith` on an `int` and raises
`AttributeError` instead of accumulating a diagnostic. -/
theorem c2_raises_attribute_error :
    validate_json_schema .jnull (.jint 1) =
      .error (.attributeError "'int' object has no attribute 'startswith'") := rfl

/-- C3: an array-reference token naming an absent fragment is not reported:
`#[]missing` against the observed empty array passes silently (the
configuration-error diagnostic of lines 60-62 is unreachable dead code). -/
theorem c3_missing_fragment_silent_pass :
    validate_json_schema (.jarr []) (.jstr "#[]missing") =
      .ok (true, "Validation successful.") := rfl

/-- C4 counterexample: a boolean observed value satisfies the `#number` token
and satisfies the numeric literal schema node `1`, contradicting the claim
that kind is checked first and both cases fail. -/
theorem c4_counterexample :
    validate_json_schema (.jbool true) (.jstr "#number") =
      .ok (true, "Validation successful.") ∧
    validate_json_schema (.jbool true) (.jint 1) =
      .ok (true, "Validation successful.") := ⟨rfl, rfl⟩

/-- C4 amended: `bool` is a subclass of `int` in Python, so booleans satisfy
`#number` and compare equal to numeric literals of the same numeric value
(`True == 1`); plain numbers still fail `#boolean`; and numeric literal
equality for genuinely numeric values is exact, with no epsilon. -/
theorem c4_amended_bool_is_number :
    (∀ b : Bool, validate_json_schema (.jbool b) (.jstr "#number") =
      .ok (true, "Validation successful.")) ∧
    validate_json_schema (.jbool true) (.jint 1) =
      .ok (true, "Validation successful.") ∧
    validate_json_schema (.jint 1) (.jstr "#boolean") =
      .ok (false, "Validation Error at '': expected boolean, got int.") ∧
    (∀ n m : Int, (validate_json_schema (.jint n) (.jint m) =
      .ok (true, "Validation successful.")) ↔ n = m) := by
  refine ⟨fun b => by cases b <;> rfl, rfl, rfl, fun n m => ?_⟩
  have key : validateFieldDiag (.jint n) (.jint m) "" =
      if !((n : Rat) == (m : Rat)) then
        .ok [s!"Validation Error at '': expected value '{pyStr (.jint m)}', got '{pyStr (.jint n)}'."]
      else .ok [] := rfl
  constructor
  · intro h
    by_contra hne
    have hbeq : ((n : Rat) == (m : Rat)) = false := by
      rw [beq_eq_false_iff_ne]
      exact_mod_cast hne
    rw [validate_json_schema, key, hbeq] at h
    simp at h
  · intro h
    subst h
    rw [validate_json_schema, key]
    simp

/-- C5: at observed value `None` and boolean literal schema `True` the matcher
raises `AttributeError` (line 43 calls `.startswith` on the schema node)
instead of returning `ok = false` as the literal biconditional requires
(`None == True` is false in Python, witnessed by the second conjunct). -/
theorem c5_literal_crash_on_none :
    validate_json_schema .jnull (.jbool true) =
      .error (.attributeError "'bool' object has no attribute 'startswith'") ∧
    pyEq .jnull (.jbool true) = false := ⟨rfl, rfl⟩

/-- C6 counterexample: the homogeneous-array shorthand does not apply to every
single-element array schema node: with schema `[1]` (single numeric literal
element) and observed `[1, 1]`, each element individually satisfies the item
schema, yet the matcher takes the positional branch and fails on the length
mismatch. -/
theorem c6_counterexample :
    validateField (.jint 1) (.jint 1) "[0]" [] = .ok [] ∧
    validateField (.jint 1) (.jint 1) "[1]" [] = .ok [] ∧
    validate_json_schema (.jarr [.jint 1, .jint 1]) (.jarr [.jint 1]) =
      .ok (false, "Validation Error at '': expected array of length 1, got 2.") :=
  ⟨rfl, rfl, rfl⟩

/-- C6 amended: for a single-element array schema node whose element is a
mapping, list or string (the guard of line 111), the observed value must be an
array and every element of it is validated against the item schema; the
concrete instance `["#number"]` against `[1, 2, "x"]` fails exactly once, with
diagnostic path `[2]`. -/
theorem c6_homogeneous_shorthand (itemSchema : JValue)
    (h : isDictListOrStr itemSchema = true) (respItems : List JValue)
    (fieldPath : String) :
    (validateFieldDiag (.jarr respItems) (.jarr [itemSchema]) fieldPath =
      combineDiags (respItems.enum.map fun p =>
        validateFieldDiag p.2 itemSchema (fieldPath ++ "[" ++ toString p.1 ++ "]"))) ∧
    validate_json_schema (.jarr [.jint 1, .jint 2, .jstr "x"]) (.jarr [.jstr "#number"]) =
      .ok (false, "Validation Error at '[2]': expected number, got str.") := by
  refine ⟨?_, rfl⟩
  cases itemSchema <;> first
    | rfl
    | simp [isDictListOrStr] at h

/-- C6 amended, witness at the item schema `"#number"`, observed `[1]`. -/
theorem c6_homogeneous_shorthand_witness :
    (validateFieldDiag (.jarr [.jint 1]) (.jarr [.jstr "#number"]) "" =
      combineDiags (([.jint 1] : List JValue).enum.map fun p =>
        validateFieldDiag p.2 (.jstr "#number") ("" ++ "[" ++ toString p.1 ++ "]"))) ∧
    validate_json_schema (.jarr [.jint 1, .jint 2, .jstr "x"]) (.jarr [.jstr "#number"]) =
      .ok (false, "Validation Error at '[2]': expected number, got str.") :=
  c6_homogeneous_shorthand (.jstr "#number") rfl [.jint 1] ""

/-- C7: for every pattern in the modelled regex subset, validation of a
`#regex <pattern>` schema node passes iff the observed value is a string some
prefix of which is fully matched by the pattern (anchored at the start, not
required to consume the whole string — `reMatchStart` is by definition "some
prefix fully matches"); with pattern `^abc`, observed `"abcdef"` passes and
observed `"xabc"` fails. -/
theorem c7_regex_prefix_match (pattern : String) (r : Regex)
    (hp : parseRegex pattern = some r) (v : JValue) :
    ((validate_json_schema v (.jstr ("#regex " ++ pattern))).map Prod.fst = .ok true ↔
      ∃ s, v = .jstr s ∧ reMatchStart r s = true) ∧
    validate_json_schema (.jstr "abcdef") (.jstr "#regex ^abc") =
      .ok (true, "Validation successful.") ∧
    validate_json_schema (.jstr "xabc") (.jstr "#regex ^abc") =
      .ok (false, "Validation Error at '': value 'xabc' does not match regex '^abc'.") := by
  refine ⟨?_, rfl, rfl⟩
  cases v with
  | jstr rs =>
    have key : validateFieldDiag (.jstr rs) (.jstr ("#regex " ++ pattern)) "" =
        (match parseRegex pattern with
         | some r2 =>
            if !reMatchStart r2 rs then
              .ok [s!"Validation Error at '': value '{rs}' does not match regex '{pattern}'."]
            else .ok []
         | none => .error (.reUnsupported pattern)) := rfl
    rw [validate_json_schema, key, hp]
    cases hm : reMatchStart r rs <;> simp [hm, Except.map]
  | jnull =>
    have key : validateFieldDiag .jnull (.jstr ("#regex " ++ pattern)) "" =
        .ok [s!"Validation Error at '': expected string to match regex '{pattern}', got {typeName JValue.jnull}."] := rfl
    rw [validate_json_schema, key]; simp [Except.map]
  | jbool b =>
    have key : validateFieldDiag (.jbool b) (.jstr ("#regex " ++ pattern)) "" =
        .ok [s!"Validation Error at '': expected string to match regex '{pattern}', got {typeName (JValue.jbool b)}."] := rfl
    rw [validate_json_schema, key]; simp [Except.map]
  | jint n =>
    have key : validateFieldDiag (.jint n) (.jstr ("#regex " ++ pattern)) "" =
        .ok [s!"Validation Error at '': expected string to match regex '{pattern}', got {typeName (JValue.jint n)}."] := rfl
    rw [validate_json_schema, key]; simp [Except.map]
  | jfloat q =>
    have key : validateFieldDiag (.jfloat q) (.jstr ("#regex " ++ pattern)) "" =
        .ok [s!"Validation Error at '': expected string to match regex '{pattern}', got {typeName (JValue.jfloat q)}."] := rfl
    rw [validate_json_schema, key]; simp [Except.map]
  | jarr xs =>
    have key : validateFieldDiag (.jarr xs) (.jstr ("#regex " ++ pattern)) "" =
        .ok [s!"Validation Error at '': expected string to match regex '{pattern}', got {typeName (JValue.jarr xs)}."] := rfl
    rw [validate_json_schema, key]; simp [Except.map]
  | jobj fs =>
    have key : validateFieldDiag (.jobj fs) (.jstr ("#regex " ++ pattern)) "" =
        .ok [s!"Validation Error at '': expected string to match regex '{pattern}', got {typeName (JValue.jobj fs)}."] := rfl
    rw [validate_json_schema, key]; simp [Except.map]

/-- C7 witness: the pattern `^abc` parses in the modelled subset, and against
the observed string `"abcdef"` validation passes. -/
theorem c7_regex_prefix_match_witness :
    (validate_json_schema (.jstr "abcdef") (.jstr ("#regex " ++ "^abc"))).map Prod.fst =
      .ok true :=
  ((c7_regex_prefix_match "^abc"
      (.cat (.chr 'a') (.cat (.chr 'b') (.cat (.chr 'c') .eps))) rfl
      (.jstr "abcdef")).1).mpr ⟨"abcdef", rfl, rfl⟩

/-- C8: the matcher is deterministic and holds no state across calls: it is a
pure function of its two inputs (first conjunct), and the per-call error
accumulator is strictly local — a call given any prior accumulator returns
exactly that accumulator extended with the diagnostics of a fresh-accumulator
run, so no earlier call can influence a later one (second conjunct). -/
theorem c8_deterministic_stateless :
    (∀ observed schema : JValue,
      validate_json_schema observed schema = validate_json_schema observed schema) ∧
    (∀ resp schema : JValue, ∀ path : String, ∀ errs : List String,
      validateField resp schema path errs =
        (validateField resp schema path []).map (fun fresh => errs ++ fresh)) := by
  refine ⟨fun o s => rfl, fun resp schema path errs => ?_⟩
  rw [validateField, validateField]
  cases validateFieldDiag resp schema path <;> simp [Except.map]

/-- C9: when the direct `is_file` lookup fails, `get_abs_file_path` raises
whenever the pattern search finds zero candidate files or more than one, and
returns the resolved path of the unique match otherwise. -/
theorem c9_pattern_search_unique (fs : FileSystem) (pattern dir : String)
    (hdirect : fs.isFile pattern = false) :
    (((fs.rglob dir pattern).filter fs.isFile).length = 0 ∨
        1 < ((fs.rglob dir pattern).filter fs.isFile).length →
      ∃ msg, get_abs_file_path fs pattern dir = .error msg) ∧
    (∀ f, (fs.rglob dir pattern).filter fs.isFile = [f] →
      get_abs_file_path fs pattern dir = .ok (fs.resolvePath f)) := by
  constructor
  · rintro (hzero | hmany)
    · have hf : (fs.rglob dir pattern).filter fs.isFile = [] :=
        List.length_eq_zero.mp hzero
      exact ⟨_, by simp [get_abs_file_path, hdirect, hf]; rfl⟩
    · exact ⟨_, by simp [get_abs_file_path, hdirect, if_pos hmany]; rfl⟩
  · intro f hf
    simp [get_abs_file_path, hdirect, hf]

/-- C9 witness: a filesystem in which the pattern `a.json` is not itself a
file and the search finds exactly `res/a.json`. -/
theorem c9_pattern_search_unique_witness :
    get_abs_file_path c9fs "a.json" "res" = .ok (c9fs.resolvePath "res/a.json") :=
  (c9_pattern_search_unique c9fs "a.json" "res" rfl).2 "res/a.json" rfl

/-- C10: `read_json_file` returns the empty dict for every path that does not
exist, for every parser (so the file is never parsed in that case), and
parses the contents only when the path exists. -/
theorem c10_missing_path_empty_dict (fs : TextFS)
    (parse : String → Except String JValue) (file_path : String)
    (h : fs.pathExists file_path = false) :
    read_json_file fs parse file_path = .ok (.jobj []) ∧
    (∀ parse2 : String → Except String JValue,
      read_json_file fs parse2 file_path = read_json_file fs parse file_path) ∧
    (∀ fs2 : TextFS, ∀ p2, fs2.pathExists p2 = true →
      read_json_file fs2 parse p2 = parse (fs2.contents p2)) := by
  refine ⟨by simp [read_json_file, h], fun parse2 => ?_, fun fs2 p2 h2 => ?_⟩
  · simp [read_json_file, h]
  · simp [read_json_file, h2]

/-- C10 witness: a filesystem with no existing paths and a parser that always
fails; the missing path still yields the empty dict. -/
theorem c10_missing_path_empty_dict_witness :
    read_json_file c10fs (fun _ => .error "boom") "missing.json" = .ok (.jobj []) :=
  (c10_missing_path_empty_dict c10fs (fun _ => .error "boom") "missing.json" rfl).1
